import Mathlib

/-!
Shallow embedding of the camera-stream crate (jbg/camera-stream), covering the
format-descriptor model (src/types.rs), the macOS fourcc conversions and format
enumeration (src/platform/macos/device.rs), the macOS stream state machine
(src/platform/macos/stream.rs), the timestamp conversion
(src/platform/macos/frame.rs), and an interleaving model of the callback mutex
shared between the delivery thread and stop().
-/

namespace CameraStream

/-- Mirrors src/types.rs: `const MAX_FRAME_RATE_RANGES: usize = 8`. -/
def MAX_FRAME_RATE_RANGES : Nat := 8

/-- Mirrors the `PixelFormat` enum in src/types.rs (the closed set of variants
present in the source; the Rust enum is `#[non_exhaustive]`). -/
inductive PixelFormat where
  | Nv12
  | Yuyv
  | Uyvy
  | Bgra32
  | Jpeg
deriving DecidableEq, Repr

/-- Mirrors `Size` in src/types.rs (u32 fields embedded as Nat; no arithmetic
on them occurs, so wrapping is irrelevant). -/
structure Size where
  width : Nat
  height : Nat
deriving DecidableEq, Repr

/-- Mirrors `Ratio` in src/types.rs (u32 fields embedded as Nat). -/
structure Ratio where
  numerator : Nat
  denominator : Nat
deriving DecidableEq, Repr

/-- Mirrors `FrameRateRange` in src/types.rs. -/
structure FrameRateRange where
  min : Ratio
  max : Ratio
deriving DecidableEq, Repr

/-- Mirrors `FormatDescriptor` in src/types.rs. The Rust field is an
`ArrayVec<FrameRateRange, 8>`; embedded as a plain list, with the capacity
bound proved as a theorem rather than carried in the type. -/
structure FormatDescriptor where
  pixel_format : PixelFormat
  size : Size
  frame_rate_ranges : List FrameRateRange
deriving DecidableEq, Repr

/-- The chunking loop inside `FormatDescriptor::from_ranges` (src/types.rs
lines 67-85): the `from_fn` closure repeatedly pulls up to
MAX_FRAME_RATE_RANGES items off the iterator into an ArrayVec chunk and stops
when a pull yields an empty chunk. On a list this is: take 8, recurse on
drop 8, stop at the empty list. Structural recursion on a fuel counter (any
fuel at least the list length gives the same result, see
`chunkRangesFuel_congr`). -/
def chunkRangesFuel : Nat → List FrameRateRange → List (List FrameRateRange)
  | _, [] => []
  | 0, _ :: _ => []
  | fuel + 1, r :: rest =>
    ((r :: rest).take MAX_FRAME_RATE_RANGES) ::
      chunkRangesFuel fuel ((r :: rest).drop MAX_FRAME_RATE_RANGES)

/-- The chunking of `FormatDescriptor::from_ranges`, with the fuel
instantiated to the list length (always sufficient: each round consumes at
least one element). -/
def chunkRanges (l : List FrameRateRange) : List (List FrameRateRange) :=
  chunkRangesFuel l.length l

/-- Mirrors `FormatDescriptor::from_ranges` (src/types.rs lines 62-86): every
chunk of frame-rate ranges becomes one descriptor with the given pixel format
and size. -/
def FormatDescriptor.from_ranges (pixel_format : PixelFormat) (size : Size)
    (ranges : List FrameRateRange) : List FormatDescriptor :=
  (chunkRanges ranges).map (fun chunk =>
    { pixel_format := pixel_format, size := size, frame_rate_ranges := chunk })

/-- Mirrors `StreamConfig` in src/types.rs. -/
structure StreamConfig where
  pixel_format : PixelFormat
  size : Size
  frame_rate : Ratio
deriving DecidableEq, Repr

/-- Mirrors the `Error` enum in src/error.rs. `Platform` carries the
human-readable description of the wrapped `PlatformError`. -/
inductive Error where
  | DeviceNotFound
  | UnsupportedFormat
  | AlreadyStarted
  | NotStarted
  | Platform (msg : String)
deriving DecidableEq, Repr

/-- Mirrors `fourcc_to_pixel_format` in src/platform/macos/device.rs
lines 104-116 (u32 fourcc embedded as Nat). -/
def fourcc_to_pixel_format (fourcc : Nat) : Option PixelFormat :=
  if fourcc = 0x34323076 then some PixelFormat.Nv12
  else if fourcc = 0x34323066 then some PixelFormat.Nv12
  else if fourcc = 0x79757632 then some PixelFormat.Yuyv
  else if fourcc = 0x32767579 then some PixelFormat.Uyvy
  else if fourcc = 0x42475241 then some PixelFormat.Bgra32
  else if fourcc = 0x6A706567 then some PixelFormat.Jpeg
  else none

/-- Mirrors `pixel_format_to_fourcc` in src/platform/macos/device.rs
lines 118-127. -/
def pixel_format_to_fourcc : PixelFormat → Nat
  | PixelFormat.Nv12 => 0x34323076
  | PixelFormat.Yuyv => 0x79757632
  | PixelFormat.Uyvy => 0x32767579
  | PixelFormat.Bgra32 => 0x42475241
  | PixelFormat.Jpeg => 0x6A706567

/-- One native `AVCaptureDeviceFormat` as observed by the code: its
`media_sub_type` fourcc, its `CMVideoFormatDescriptionGetDimensions`, and its
`videoSupportedFrameRateRanges` already converted by `f64_to_ratio` (the f64
conversion itself carries no claim, so ranges are embedded post-conversion). -/
structure NativeFormat where
  media_sub_type : Nat
  width : Nat
  height : Nat
  frame_rate_ranges : List FrameRateRange
deriving DecidableEq, Repr

/-- Mirrors `format_to_descriptors` in src/platform/macos/device.rs
lines 70-102: the format's fourcc is translated with
`fourcc_to_pixel_format`; an unknown fourcc (`None`) contributes no
descriptors, a known one is expanded through `FormatDescriptor::from_ranges`. -/
def format_to_descriptors (f : NativeFormat) : List FormatDescriptor :=
  match fourcc_to_pixel_format f.media_sub_type with
  | some pf =>
      FormatDescriptor.from_ranges pf { width := f.width, height := f.height }
        f.frame_rate_ranges
  | none => []

/-- Mirrors `MacosCameraDevice::supported_formats` in
src/platform/macos/device.rs lines 152-158: flat_map of
`format_to_descriptors` over the device's native formats. -/
def supported_formats (formats : List NativeFormat) : List FormatDescriptor :=
  formats.flatMap format_to_descriptors

/-- Whether a (pixel_format, size) pair appears among the descriptors returned
by `supported_formats` (the absence condition used by the spec's `open()`
contract). -/
def pairSupported (formats : List NativeFormat) (pf : PixelFormat)
    (size : Size) : Bool :=
  (supported_formats formats).any (fun d => d.pixel_format == pf && d.size == size)

/-- Mirrors the pixel-format determination in
`MacosFrame::from_locked_pixel_buffer` (src/platform/macos/frame.rs line 61):
`fourcc_to_pixel_format(fourcc).unwrap_or(PixelFormat::Nv12)`. -/
def frame_pixel_format (fourcc : Nat) : PixelFormat :=
  (fourcc_to_pixel_format fourcc).getD PixelFormat.Nv12

/-- Mirrors `MacosTimestamp` in src/platform/macos/frame.rs (i64/i32 fields
embedded as Int, u32 flags as Nat). -/
structure MacosTimestamp where
  value : Int
  timescale : Int
  flags : Nat
  epoch : Int
deriving DecidableEq, Repr

/-- Mirrors `MacosTimestamp::as_secs_f64` in src/platform/macos/frame.rs
lines 31-39: divide only when `timescale > 0`, else return 0.0. -/
def MacosTimestamp.as_secs_f64 (t : MacosTimestamp) : Float :=
  if t.timescale > 0 then Float.ofInt t.value / Float.ofInt t.timescale
  else 0.0

/-- The mutable fields of `MacosCameraStream` (src/platform/macos/stream.rs
lines 108-116) that the claims mention: whether a delegate (and with it a
registered callback) is installed, whether the device configuration lock is
held (`config_locked`), and whether the session is `running`. -/
structure MacosCameraStream where
  hasDelegate : Bool
  config_locked : Bool
  running : Bool
deriving DecidableEq, Repr

/-- The behavior of the native AVFoundation calls that
`MacosCameraStream::new` makes, abstracted as success/failure outcomes: the
native format catalog plus whether `deviceInputWithDevice_error`,
`canAddInput`, `canAddOutput`, `lockForConfiguration`, and the
`setActiveFormat`/frame-duration block succeed. -/
structure DeviceBehavior where
  formats : List NativeFormat
  deviceInputOk : Bool
  canAddInput : Bool
  canAddOutput : Bool
  lockForConfigurationOk : Bool
  setActiveFormatOk : Bool
deriving DecidableEq, Repr

/-- Result of an `open()` attempt together with whether the device
configuration lock (taken via `lockForConfiguration`) is held at the moment
`new` returns. -/
structure OpenOutcome where
  result : Except Error MacosCameraStream
  deviceConfigLockHeld : Bool

/-- Mirrors `MacosCameraStream::new` (src/platform/macos/stream.rs
lines 119-218) step by step, tracking the configuration lock:
1. `AVCaptureDeviceInput::deviceInputWithDevice_error` (line 126) — Platform
   error on failure;
2. search `device.formats()` for the first format whose fourcc equals
   `pixel_format_to_fourcc(config.pixel_format)` and whose dimensions equal
   `config.size` (lines 145-161), `UnsupportedFormat` if none (line 163);
3. session configuration: `canAddInput` / `canAddOutput` failures commit and
   return Platform errors (lines 172-195);
4. `lockForConfiguration` (line 201) — Platform error on failure, lock not
   taken;
5. `setActiveFormat` + frame durations inside `catch_objc` (lines 204-208) —
   Platform error on an Objective-C exception, with the lock still held and no
   unlock on this path;
6. success: stream with `config_locked = true`, `running = false`, no
   delegate. -/
def MacosCameraStream.new (dev : DeviceBehavior) (config : StreamConfig) :
    OpenOutcome :=
  if !dev.deviceInputOk then
    { result := Except.error (Error.Platform "deviceInputWithDevice error"),
      deviceConfigLockHeld := false }
  else
    match dev.formats.find? (fun f =>
        f.media_sub_type == pixel_format_to_fourcc config.pixel_format &&
        f.width == config.size.width && f.height == config.size.height) with
    | none =>
      { result := Except.error Error.UnsupportedFormat,
        deviceConfigLockHeld := false }
    | some _ =>
      if !dev.canAddInput then
        { result := Except.error (Error.Platform "cannot add input to session"),
          deviceConfigLockHeld := false }
      else if !dev.canAddOutput then
        { result := Except.error (Error.Platform "cannot add output to session"),
          deviceConfigLockHeld := false }
      else if !dev.lockForConfigurationOk then
        { result := Except.error (Error.Platform "lockForConfiguration error"),
          deviceConfigLockHeld := false }
      else if !dev.setActiveFormatOk then
        { result := Except.error
            (Error.Platform "exception in setActiveFormat"),
          deviceConfigLockHeld := true }
      else
        { result := Except.ok
            { hasDelegate := false, config_locked := true, running := false },
          deviceConfigLockHeld := true }

/-- Mirrors `MacosCameraStream::start` (src/platform/macos/stream.rs
lines 225-260). `startRunningOk` abstracts whether `session.startRunning()`
throws. Already-running streams fail first, before any mutation (line 229).
Otherwise the delegate is installed, `startRunning` runs, and on success the
configuration lock is released (lines 254-257). -/
def MacosCameraStream.start (startRunningOk : Bool) (s : MacosCameraStream) :
    Except Error Unit × MacosCameraStream :=
  if s.running then (Except.error Error.AlreadyStarted, s)
  else
    let s1 := { s with hasDelegate := true }
    if !startRunningOk then
      (Except.error (Error.Platform "exception in startRunning"), s1)
    else
      (Except.ok (), { s1 with running := true, config_locked := false })

/-- Mirrors `MacosCameraStream::stop` (src/platform/macos/stream.rs
lines 262-283). Not-running streams fail first, before any mutation
(lines 263-265). Otherwise the session is stopped, the delegate detached and
its callback cleared, and `running` reset. -/
def MacosCameraStream.stop (s : MacosCameraStream) :
    Except Error Unit × MacosCameraStream :=
  if !s.running then (Except.error Error.NotStarted, s)
  else (Except.ok (), { s with hasDelegate := false, running := false })

/-- Mirrors `Drop for MacosCameraStream` (src/platform/macos/stream.rs
lines 286-296): an implicit `stop()` if still running, then an unconditional
release of the configuration lock if still held. -/
def dropStream (s : MacosCameraStream) : MacosCameraStream :=
  let s1 := if s.running then (MacosCameraStream.stop s).2 else s
  if s1.config_locked then { s1 with config_locked := false } else s1

/-- The two threads that touch the shared callback slot
(`Arc<Mutex<Option<FrameCallback>>>` in src/platform/macos/stream.rs): the
backend delivery thread running `captureOutput_didOutputSampleBuffer` and the
controlling thread running `stop()`. -/
inductive Tid where
  | delivery
  | stopper
deriving DecidableEq, Repr

/-- Program counter of the `stop()` call with respect to the callback mutex:
before `callback.lock()` (line 275), holding the guard, after `*guard = None`
(line 277), and after the guard is dropped and `stop()` has returned. -/
inductive StopPc where
  | beforeLock
  | locked
  | cleared
  | returned
deriving DecidableEq, Repr

/-- Interleaving state of the callback mutex shared by the delivery thread
(src/platform/macos/stream.rs lines 85-88) and `stop()` (lines 274-279):
who holds the mutex, whether the `Option<FrameCallback>` slot is `Some`, and
how far `stop()` has progressed. -/
structure SyncState where
  mutexOwner : Option Tid
  callbackSet : Bool
  stopPc : StopPc
deriving DecidableEq, Repr

/-- Observable events of the interleaving: the delivery thread locking the
mutex, invoking the callback (only possible while holding the mutex with the
slot still `Some`), skipping a cleared slot, and unlocking; and `stop()`
locking, clearing the slot, and unlocking-and-returning. -/
inductive SyncLabel where
  | deliveryLock
  | deliveryInvoke
  | deliverySkip
  | deliveryUnlock
  | stopLock
  | stopClear
  | stopUnlockReturn
deriving DecidableEq, Repr

/-- Small-step interleaving semantics of the callback mutex. The delivery
thread may only invoke the callback while it owns the mutex and the slot is
`Some` (stream.rs lines 85-88); `stop()` must own the mutex to clear the slot
(line 277), and it returns only after releasing the guard. No step ever sets
the slot back to `Some` (only `start()` would, and the scenario is a running
stream being stopped). -/
inductive SyncStep : SyncState → SyncLabel → SyncState → Prop where
  | deliveryLock (s : SyncState) (h : s.mutexOwner = none) :
      SyncStep s SyncLabel.deliveryLock { s with mutexOwner := some Tid.delivery }
  | deliveryInvoke (s : SyncState) (h1 : s.mutexOwner = some Tid.delivery)
      (h2 : s.callbackSet = true) :
      SyncStep s SyncLabel.deliveryInvoke s
  | deliverySkip (s : SyncState) (h1 : s.mutexOwner = some Tid.delivery)
      (h2 : s.callbackSet = false) :
      SyncStep s SyncLabel.deliverySkip s
  | deliveryUnlock (s : SyncState) (h : s.mutexOwner = some Tid.delivery) :
      SyncStep s SyncLabel.deliveryUnlock { s with mutexOwner := none }
  | stopLock (s : SyncState) (h : s.mutexOwner = none)
      (hpc : s.stopPc = StopPc.beforeLock) :
      SyncStep s SyncLabel.stopLock
        { s with mutexOwner := some Tid.stopper, stopPc := StopPc.locked }
  | stopClear (s : SyncState) (h : s.mutexOwner = some Tid.stopper)
      (hpc : s.stopPc = StopPc.locked) :
      SyncStep s SyncLabel.stopClear
        { s with callbackSet := false, stopPc := StopPc.cleared }
  | stopUnlockReturn (s : SyncState) (h : s.mutexOwner = some Tid.stopper)
      (hpc : s.stopPc = StopPc.cleared) :
      SyncStep s SyncLabel.stopUnlockReturn
        { s with mutexOwner := none, stopPc := StopPc.returned }

/-- An execution: a list of (label, post-state) pairs, each step permitted by
`SyncStep` from the previous state. -/
inductive Exec : SyncState → List (SyncLabel × SyncState) → Prop where
  | nil (s : SyncState) : Exec s []
  | cons (s : SyncState) (l : SyncLabel) (s2 : SyncState)
      (tr : List (SyncLabel × SyncState)) :
      SyncStep s l s2 → Exec s2 tr → Exec s ((l, s2) :: tr)

/-- The state in which a `stop()` call begins on a running stream: mutex free,
callback registered, `stop()` about to take the lock. -/
def initialRunningState : SyncState :=
  { mutexOwner := none, callbackSet := true, stopPc := StopPc.beforeLock }

/-- Final state of an execution (the initial state for the empty trace). -/
def lastState (s : SyncState) (tr : List (SyncLabel × SyncState)) : SyncState :=
  match tr.getLast? with
  | some p => p.2
  | none => s

/-- Once `stop()` has cleared the slot (or returned), the slot is empty. -/
def ClearedInv (s : SyncState) : Prop :=
  (s.stopPc = StopPc.cleared ∨ s.stopPc = StopPc.returned) → s.callbackSet = false

/-- Failing input for the configuration-lock claim: a device whose native
catalog matches the requested format, whose input/session/lock steps all
succeed, but whose `setActiveFormat` block throws an Objective-C exception. -/
def c1Device : DeviceBehavior where
  formats := [⟨0x34323076, 1280, 720, [⟨⟨30000, 1000⟩, ⟨30000, 1000⟩⟩]⟩]
  deviceInputOk := true
  canAddInput := true
  canAddOutput := true
  lockForConfigurationOk := true
  setActiveFormatOk := false

/-- Device for the `open()`-validation claim: one native format with fourcc
420v (Nv12) at 1280x720 but zero frame-rate ranges, all native calls
succeeding. -/
def c4Device : DeviceBehavior where
  formats := [⟨0x34323076, 1280, 720, []⟩]
  deviceInputOk := true
  canAddInput := true
  canAddOutput := true
  lockForConfigurationOk := true
  setActiveFormatOk := true

/-- The Nv12 1280x720 at 30 fps stream configuration used as concrete input. -/
def nv12Config : StreamConfig :=
  { pixel_format := PixelFormat.Nv12,
    size := { width := 1280, height := 720 },
    frame_rate := { numerator := 30000, denominator := 1000 } }

/-- Nine distinct frame-rate ranges, enough to force descriptor splitting. -/
def nineRanges : List FrameRateRange :=
  (List.range 9).map (fun k =>
    { min := { numerator := 1000 * (k + 1), denominator := 1000 },
      max := { numerator := 1000 * (k + 1), denominator := 1000 } })

/-- The 1280x720 frame size used as concrete input. -/
def hd720 : Size := { width := 1280, height := 720 }

/-- The descriptor holding the first eight of `nineRanges` (the first chunk
produced by `from_ranges` on that input). -/
def firstChunk : FormatDescriptor where
  pixel_format := PixelFormat.Nv12
  size := hd720
  frame_rate_ranges := nineRanges.take 8

/-- A freshly opened stream: configuration lock held, not yet started. -/
def freshStream : MacosCameraStream :=
  { hasDelegate := false, config_locked := true, running := false }

/-- A started stream: delegate installed, lock released, running. -/
def runningStream : MacosCameraStream :=
  { hasDelegate := true, config_locked := false, running := true }

/-- A running stream that (hypothetically) still holds the configuration
lock, exercising both branches of the drop logic. -/
def runningLockedStream : MacosCameraStream :=
  { hasDelegate := true, config_locked := true, running := true }

/-- A native format with a fourcc outside the portable enumeration. -/
def unknownNativeFormat : NativeFormat :=
  { media_sub_type := 0, width := 640, height := 480, frame_rate_ranges := [] }

/-- A timestamp with a zero timescale. -/
def zeroTimescaleStamp : MacosTimestamp :=
  { value := 7, timescale := 0, flags := 1, epoch := 0 }

/-- A device with an empty native format catalog and all native calls
succeeding. -/
def emptyCatalogDevice : DeviceBehavior where
  formats := []
  deviceInputOk := true
  canAddInput := true
  canAddOutput := true
  lockForConfigurationOk := true
  setActiveFormatOk := true

/-- A complete run of `stop()` with no interleaved delivery: lock, clear,
unlock-and-return. -/
def stopTrace : List (SyncLabel × SyncState) :=
  [(SyncLabel.stopLock,
      { mutexOwner := some Tid.stopper, callbackSet := true,
        stopPc := StopPc.locked }),
   (SyncLabel.stopClear,
      { mutexOwner := some Tid.stopper, callbackSet := false,
        stopPc := StopPc.cleared }),
   (SyncLabel.stopUnlockReturn,
      { mutexOwner := none, callbackSet := false, stopPc := StopPc.returned })]

/-- A delivery-thread round after `stop()` has returned: it takes the mutex,
finds the slot cleared, and unlocks without invoking anything. -/
def afterStopTrace : List (SyncLabel × SyncState) :=
  [(SyncLabel.deliveryLock,
      { mutexOwner := some Tid.delivery, callbackSet := false,
        stopPc := StopPc.returned }),
   (SyncLabel.deliverySkip,
      { mutexOwner := some Tid.delivery, callbackSet := false,
        stopPc := StopPc.returned }),
   (SyncLabel.deliveryUnlock,
      { mutexOwner := none, callbackSet := false, stopPc := StopPc.returned })]

theorem chunkRangesFuel_congr :
    ∀ (f1 f2 : Nat) (l : List FrameRateRange),
      l.length ≤ f1 → l.length ≤ f2 →
      chunkRangesFuel f1 l = chunkRangesFuel f2 l := by
  intro f1
  induction f1 with
  | zero =>
    intro f2 l h1 _
    have hl : l = [] := List.length_eq_zero.mp (Nat.le_zero.mp h1)
    subst hl
    cases f2 <;> rfl
  | succ f ih =>
    intro f2 l h1 h2
    cases l with
    | nil => cases f2 <;> rfl
    | cons r rest =>
      cases f2 with
      | zero => simp at h2
      | succ f2p =>
        show ((r :: rest).take MAX_FRAME_RATE_RANGES) ::
            chunkRangesFuel f ((r :: rest).drop MAX_FRAME_RATE_RANGES) =
          ((r :: rest).take MAX_FRAME_RATE_RANGES) ::
            chunkRangesFuel f2p ((r :: rest).drop MAX_FRAME_RATE_RANGES)
        congr 1
        apply ih
        · simp only [List.length_drop, List.length_cons,
            MAX_FRAME_RATE_RANGES] at h1 ⊢
          omega
        · simp only [List.length_drop, List.length_cons,
            MAX_FRAME_RATE_RANGES] at h2 ⊢
          omega

theorem chunkRanges_cons (r : FrameRateRange) (rest : List FrameRateRange) :
    chunkRanges (r :: rest) =
      ((r :: rest).take MAX_FRAME_RATE_RANGES) ::
        chunkRanges ((r :: rest).drop MAX_FRAME_RATE_RANGES) := by
  show chunkRangesFuel (r :: rest).length (r :: rest) = _
  simp only [List.length_cons]
  show ((r :: rest).take MAX_FRAME_RATE_RANGES) ::
      chunkRangesFuel rest.length ((r :: rest).drop MAX_FRAME_RATE_RANGES) = _
  congr 1
  apply chunkRangesFuel_congr
  · simp only [List.length_drop, List.length_cons, MAX_FRAME_RATE_RANGES]
    omega
  · exact Nat.le_refl _

theorem chunkRanges_flatten (l : List FrameRateRange) :
    (chunkRanges l).flatten = l := by
  match l with
  | [] => rfl
  | r :: rest =>
    rw [chunkRanges_cons, List.flatten_cons,
      chunkRanges_flatten ((r :: rest).drop MAX_FRAME_RATE_RANGES)]
    exact List.take_append_drop _ _
termination_by l.length
decreasing_by simp [MAX_FRAME_RATE_RANGES]; omega

theorem chunkRanges_length (l : List FrameRateRange) :
    (chunkRanges l).length =
      (l.length + MAX_FRAME_RATE_RANGES - 1) / MAX_FRAME_RATE_RANGES := by
  match l with
  | [] => simp [chunkRanges, chunkRangesFuel, MAX_FRAME_RATE_RANGES]
  | r :: rest =>
    rw [chunkRanges_cons, List.length_cons,
      chunkRanges_length ((r :: rest).drop MAX_FRAME_RATE_RANGES)]
    simp only [List.length_drop, List.length_cons, MAX_FRAME_RATE_RANGES]
    omega
termination_by l.length
decreasing_by simp [MAX_FRAME_RATE_RANGES]; omega

theorem chunkRanges_mem_length (l : List FrameRateRange) :
    ∀ c ∈ chunkRanges l, c.length ≤ MAX_FRAME_RATE_RANGES := by
  match l with
  | [] => intro c hc; cases hc
  | r :: rest =>
    intro c hc
    rw [chunkRanges_cons] at hc
    rcases List.mem_cons.mp hc with h | h
    · subst h
      simp
    · exact chunkRanges_mem_length ((r :: rest).drop MAX_FRAME_RATE_RANGES) c h
termination_by l.length
decreasing_by simp [MAX_FRAME_RATE_RANGES]; omega

theorem lastState_cons (s : SyncState) (l : SyncLabel) (s2 : SyncState)
    (tr : List (SyncLabel × SyncState)) :
    lastState s ((l, s2) :: tr) = lastState s2 tr := by
  cases tr with
  | nil => rfl
  | cons p tr2 => simp [lastState, List.getLast?]

theorem syncStep_preserves_clearedInv {s : SyncState} {l : SyncLabel}
    {s2 : SyncState} (hstep : SyncStep s l s2) (hinv : ClearedInv s) :
    ClearedInv s2 := by
  cases hstep with
  | deliveryLock h => exact hinv
  | deliveryInvoke h1 h2 => exact hinv
  | deliverySkip h1 h2 => exact hinv
  | deliveryUnlock h => exact hinv
  | stopLock h hpc =>
    intro hp
    simp [ClearedInv] at hp
  | stopClear h hpc => intro _; rfl
  | stopUnlockReturn h hpc =>
    intro _
    exact hinv (Or.inl hpc)

theorem exec_lastState_clearedInv {s : SyncState}
    {tr : List (SyncLabel × SyncState)} (hexec : Exec s tr)
    (hinv : ClearedInv s) : ClearedInv (lastState s tr) := by
  induction hexec with
  | nil s => exact hinv
  | cons s l s2 tr hstep _ ih =>
    rw [lastState_cons]
    exact ih (syncStep_preserves_clearedInv hstep hinv)

theorem syncStep_preserves_unset {s : SyncState} {l : SyncLabel}
    {s2 : SyncState} (hstep : SyncStep s l s2) (h : s.callbackSet = false) :
    s2.callbackSet = false := by
  cases hstep <;> simp_all

theorem exec_unset_no_invoke {s : SyncState}
    {tr : List (SyncLabel × SyncState)} (hexec : Exec s tr)
    (hcb : s.callbackSet = false) :
    ∀ p ∈ tr, p.1 ≠ SyncLabel.deliveryInvoke := by
  induction hexec with
  | nil s => intro p hp; cases hp
  | cons s l s2 tr hstep htail ih =>
    intro p hp
    rcases List.mem_cons.mp hp with h | h
    · subst h
      intro hlabel
      cases hstep <;> simp_all
    · exact ih (syncStep_preserves_unset hstep hcb) p h

theorem exec_stopTrace : Exec initialRunningState stopTrace := by
  refine Exec.cons _ _ _ _ ?_ (Exec.cons _ _ _ _ ?_ (Exec.cons _ _ _ _ ?_ (Exec.nil _)))
  · exact SyncStep.stopLock _ rfl rfl
  · exact SyncStep.stopClear _ rfl rfl
  · exact SyncStep.stopUnlockReturn _ rfl rfl

theorem exec_afterStopTrace :
    Exec (lastState initialRunningState stopTrace) afterStopTrace := by
  refine Exec.cons _ _ _ _ ?_ (Exec.cons _ _ _ _ ?_ (Exec.cons _ _ _ _ ?_ (Exec.nil _)))
  · exact SyncStep.deliveryLock _ rfl
  · exact SyncStep.deliverySkip _ rfl rfl
  · exact SyncStep.deliveryUnlock _ rfl

/-- C1: the claim says an Error return from `open()` guarantees every lock
acquired during the attempt was released. The code violates this: when
`lockForConfiguration` succeeds but the subsequent `setActiveFormat` block
throws an Objective-C exception (src/platform/macos/stream.rs lines 201-208),
`MacosCameraStream::new` returns the error with the device configuration lock
still held — no `unlockForConfiguration` runs on that path, and the stream
value whose `Drop` would release it was never constructed. This theorem
evaluates the embedded `new` at that failing input. -/
theorem open_error_path_keeps_lock :
    (MacosCameraStream.new c1Device nv12Config).result =
      Except.error (Error.Platform "exception in setActiveFormat") ∧
    (MacosCameraStream.new c1Device nv12Config).deviceConfigLockHeld = true :=
  ⟨rfl, rfl⟩

/-- C2: once `stop()` has returned (a trace from the running state whose final
state has the stop call completed), no continuation of the execution contains
a callback invocation: the callback slot was cleared under the mutex before
`stop()` returned, the mutex serializes the delivery thread against the
clearing, and the delivery thread only invokes a callback it finds `Some`. -/
theorem stop_return_no_callback (tr tr2 : List (SyncLabel × SyncState))
    (h1 : Exec initialRunningState tr)
    (h2 : (lastState initialRunningState tr).stopPc = StopPc.returned)
    (h3 : Exec (lastState initialRunningState tr) tr2) :
    ∀ p ∈ tr2, p.1 ≠ SyncLabel.deliveryInvoke := by
  have hinv : ClearedInv (lastState initialRunningState tr) :=
    exec_lastState_clearedInv h1
      (by intro hp; rcases hp with hp | hp <;> simp [initialRunningState] at hp)
  exact exec_unset_no_invoke h3 (hinv (Or.inr h2))

theorem stop_return_no_callback_witness :
    Exec initialRunningState stopTrace ∧
    (lastState initialRunningState stopTrace).stopPc = StopPc.returned ∧
    (∀ p ∈ afterStopTrace, p.1 ≠ SyncLabel.deliveryInvoke) :=
  ⟨exec_stopTrace, rfl,
    stop_return_no_callback stopTrace afterStopTrace exec_stopTrace rfl
      exec_afterStopTrace⟩

/-- C3: `FormatDescriptor::from_ranges(pf, size, ranges)` with N input ranges
and bound B = MAX_FRAME_RATE_RANGES = 8 yields exactly ceil(N/B) descriptors,
each carrying the given pixel format and size with at most B ranges, and the
concatenation of the descriptors' range lists in order is the original input
(no range dropped, order preserved). -/
theorem from_ranges_spec (pf : PixelFormat) (sz : Size)
    (l : List FrameRateRange) :
    (FormatDescriptor.from_ranges pf sz l).length =
      (l.length + MAX_FRAME_RATE_RANGES - 1) / MAX_FRAME_RATE_RANGES ∧
    (∀ d ∈ FormatDescriptor.from_ranges pf sz l,
      d.pixel_format = pf ∧ d.size = sz ∧
      d.frame_rate_ranges.length ≤ MAX_FRAME_RATE_RANGES) ∧
    ((FormatDescriptor.from_ranges pf sz l).map
      FormatDescriptor.frame_rate_ranges).flatten = l := by
  refine ⟨?_, ?_, ?_⟩
  · unfold FormatDescriptor.from_ranges
    rw [List.length_map]
    exact chunkRanges_length l
  · intro d hd
    unfold FormatDescriptor.from_ranges at hd
    obtain ⟨c, hc, rfl⟩ := List.mem_map.mp hd
    exact ⟨rfl, rfl, chunkRanges_mem_length l c hc⟩
  · unfold FormatDescriptor.from_ranges
    rw [List.map_map]
    have hid : (FormatDescriptor.frame_rate_ranges ∘ fun chunk =>
        ({ pixel_format := pf, size := sz, frame_rate_ranges := chunk } :
          FormatDescriptor)) = id := rfl
    rw [hid, List.map_id]
    exact chunkRanges_flatten l

theorem from_ranges_spec_witness :
    (FormatDescriptor.from_ranges PixelFormat.Nv12 hd720 nineRanges).length =
      (nineRanges.length + MAX_FRAME_RATE_RANGES - 1) / MAX_FRAME_RATE_RANGES ∧
    (firstChunk.pixel_format = PixelFormat.Nv12 ∧ firstChunk.size = hd720 ∧
      firstChunk.frame_rate_ranges.length ≤ MAX_FRAME_RATE_RANGES) ∧
    ((FormatDescriptor.from_ranges PixelFormat.Nv12 hd720 nineRanges).map
      FormatDescriptor.frame_rate_ranges).flatten = nineRanges :=
  ⟨(from_ranges_spec PixelFormat.Nv12 hd720 nineRanges).1,
   (from_ranges_spec PixelFormat.Nv12 hd720 nineRanges).2.1 firstChunk
     (by decide),
   (from_ranges_spec PixelFormat.Nv12 hd720 nineRanges).2.2⟩

/-- C4 counterexample: the claim says a (pixel_format, size) pair absent from
`supported_formats()` makes `open()` fail with `UnsupportedFormat`. On a
device whose only native format is 420v 1280x720 with zero frame-rate ranges,
the pair (Nv12, 1280x720) is absent from `supported_formats()` (zero ranges
produce zero descriptors), yet `open()` matches the native format (the match
checks only fourcc and dimensions) and succeeds. -/
theorem open_absent_pair_counterexample :
    pairSupported c4Device.formats PixelFormat.Nv12 hd720 = false ∧
    (MacosCameraStream.new c4Device nv12Config).result = Except.ok freshStream :=
  ⟨rfl, rfl⟩

/-- C4 amended: if the device-input creation step succeeds and no native
format has the requested fourcc and dimensions, `open()` fails with exactly
`UnsupportedFormat` (and holds no lock). Absence from `supported_formats()`
alone is not enough (see the counterexample); absence from the native catalog
is the condition the code actually checks. -/
theorem open_no_native_match_unsupported (dev : DeviceBehavior)
    (config : StreamConfig) (hin : dev.deviceInputOk = true)
    (habs : ∀ f ∈ dev.formats,
      ¬(f.media_sub_type = pixel_format_to_fourcc config.pixel_format ∧
        f.width = config.size.width ∧ f.height = config.size.height)) :
    MacosCameraStream.new dev config =
      { result := Except.error Error.UnsupportedFormat,
        deviceConfigLockHeld := false } := by
  have hfind : dev.formats.find? (fun f =>
      f.media_sub_type == pixel_format_to_fourcc config.pixel_format &&
      f.width == config.size.width && f.height == config.size.height) = none := by
    rw [List.find?_eq_none]
    intro f hf
    have := habs f hf
    simp only [Bool.and_eq_true, beq_iff_eq]
    tauto
  unfold MacosCameraStream.new
  rw [hin, hfind]
  rfl

theorem open_no_native_match_unsupported_witness :
    emptyCatalogDevice.deviceInputOk = true ∧
    MacosCameraStream.new emptyCatalogDevice nv12Config =
      { result := Except.error Error.UnsupportedFormat,
        deviceConfigLockHeld := false } :=
  ⟨rfl, open_no_native_match_unsupported emptyCatalogDevice nv12Config rfl
    (by intro f hf; cases hf)⟩

/-- C5: calling `start()` on a stream already running fails with
`AlreadyStarted` and leaves the whole stream state (delegate, configuration
lock, running flag) unchanged — the check is the first statement of
`start()`, before any mutation. -/
theorem start_already_started (startRunningOk : Bool) (s : MacosCameraStream)
    (h : s.running = true) :
    MacosCameraStream.start startRunningOk s =
      (Except.error Error.AlreadyStarted, s) := by
  simp [MacosCameraStream.start, h]

theorem start_already_started_witness :
    runningStream.running = true ∧
    MacosCameraStream.start true runningStream =
      (Except.error Error.AlreadyStarted, runningStream) :=
  ⟨rfl, start_already_started true runningStream rfl⟩

/-- C6: calling `stop()` on a stream that is not running fails with
`NotStarted` and leaves the stream state unchanged — the check is the first
statement of `stop()`, before any mutation. -/
theorem stop_not_running_not_started (s : MacosCameraStream)
    (h : s.running = false) :
    MacosCameraStream.stop s = (Except.error Error.NotStarted, s) := by
  simp [MacosCameraStream.stop, h]

theorem stop_not_running_not_started_witness :
    freshStream.running = false ∧
    MacosCameraStream.stop freshStream =
      (Except.error Error.NotStarted, freshStream) :=
  ⟨rfl, stop_not_running_not_started freshStream rfl⟩

/-- C7 counterexample: the claim says no operation maps an unknown native
encoding to a portable PixelFormat, but
`MacosFrame::from_locked_pixel_buffer` (src/platform/macos/frame.rs line 61)
maps any unknown fourcc to `PixelFormat::Nv12` via `unwrap_or`: fourcc
0x47524159 is not in the portable enumeration yet the frame is labeled Nv12. -/
theorem unknown_encoding_mapped_counterexample :
    fourcc_to_pixel_format 0x47524159 = none ∧
    frame_pixel_format 0x47524159 = PixelFormat.Nv12 :=
  ⟨rfl, rfl⟩

/-- C7 amended: `supported_formats()` silently excludes native formats with an
unrecognized pixel encoding (no error, no descriptor), and frame construction
never panics on an unknown encoding — but it labels such a frame with the
default `PixelFormat::Nv12` rather than treating it as unsupported. -/
theorem unknown_encoding_excluded (f : NativeFormat)
    (h : fourcc_to_pixel_format f.media_sub_type = none) :
    format_to_descriptors f = [] ∧
    frame_pixel_format f.media_sub_type = PixelFormat.Nv12 := by
  constructor
  · unfold format_to_descriptors
    rw [h]
  · unfold frame_pixel_format
    rw [h]
    rfl

theorem unknown_encoding_excluded_witness :
    format_to_descriptors unknownNativeFormat = [] ∧
    frame_pixel_format unknownNativeFormat.media_sub_type = PixelFormat.Nv12 :=
  unknown_encoding_excluded unknownNativeFormat rfl

/-- C8: releasing (dropping) a stream in any state leaves the configuration
lock released, and if the stream was still running the implicit `stop()`
transition is applied first (the drop result is exactly the post-stop state
with the lock cleared). -/
theorem drop_releases_config_lock (s : MacosCameraStream) :
    (dropStream s).config_locked = false ∧
    (s.running = true →
      dropStream s =
        { (MacosCameraStream.stop s).2 with config_locked := false }) := by
  rcases s with ⟨d, c, r⟩
  cases c <;> cases r <;> simp [dropStream, MacosCameraStream.stop]

theorem drop_releases_config_lock_witness :
    runningLockedStream.running = true ∧
    (dropStream runningLockedStream).config_locked = false ∧
    dropStream runningLockedStream =
      { (MacosCameraStream.stop runningLockedStream).2 with config_locked := false } :=
  ⟨rfl, (drop_releases_config_lock runningLockedStream).1,
   (drop_releases_config_lock runningLockedStream).2 rfl⟩

/-- C9: for every portable PixelFormat, translating it to its macOS fourcc
and back returns the same PixelFormat. -/
theorem pixel_format_round_trip (pf : PixelFormat) :
    fourcc_to_pixel_format (pixel_format_to_fourcc pf) = some pf := by
  cases pf <;> rfl

/-- C10: `MacosTimestamp::as_secs_f64` returns exactly 0.0 whenever the
timescale is zero or negative; the division value/timescale only happens in
the `timescale > 0` branch. -/
theorem as_secs_f64_nonpositive_timescale (t : MacosTimestamp)
    (h : t.timescale ≤ 0) : t.as_secs_f64 = 0.0 := by
  unfold MacosTimestamp.as_secs_f64
  rw [if_neg (by omega)]

theorem as_secs_f64_nonpositive_timescale_witness :
    zeroTimescaleStamp.timescale ≤ 0 ∧
    MacosTimestamp.as_secs_f64 zeroTimescaleStamp = 0.0 :=
  ⟨by decide, as_secs_f64_nonpositive_timescale zeroTimescaleStamp (by decide)⟩

end CameraStream
